import Mathlib

/-!
Verification of the CockroachDB tracing core (`pkg/util/tracing/tracer.go`):
a shallow embedding of the span-metadata wire codec
(`Tracer.InjectMetaInto` / `Tracer.ExtractMetaFrom`) and of span creation
(`Tracer.startSpanGeneric`), together with theorems settling the spec claims.

Go strings are modelled as `List Char`; Go `uint64` as `Nat` with explicit
`< 2^64` bounds where the code's 64-bit parsing matters.
-/

deriving instance DecidableEq for Except

/-- Go strings, modelled as lists of characters. -/
abbrev Str := List Char

/-- Conversion from Lean string literals to the `Str` model. -/
def str (s : String) : Str := s.data

/-- ASCII lower-casing of a character (model of Go `strings.ToLower`,
restricted to the ASCII keys the tracer wire protocol uses). -/
def lowerChar (c : Char) : Char :=
  if 'A' ≤ c ∧ c ≤ 'Z' then Char.ofNat (c.toNat + 32) else c

/-- Model of `strings.ToLower`. -/
def toLowerStr (s : Str) : Str := s.map lowerChar

/-- `hasPfx p s` models `strings.HasPrefix(s, p)`. -/
def hasPfx (p s : Str) : Bool := decide (s.take p.length = p)

/-- `dropPfx p s` models `strings.TrimPrefix(s, p)` under the assumption the
prefix is present (the tracer code only trims after a `HasPrefix` check). -/
def dropPfx (p s : Str) : Str := s.drop p.length

/-- The hex digit character for a value `d < 16`, as produced by
`strconv.FormatUint(_, 16)` (lowercase digits). -/
def hexDigitChar (d : Nat) : Char :=
  if d < 10 then Char.ofNat (48 + d) else Char.ofNat (87 + d)

/-- Accumulator loop of the hex formatter: prepends the base-16 digits of `n`
onto `acc`. -/
def toHexCore (n : Nat) (acc : Str) : Str :=
  if h : n = 0 then acc
  else toHexCore (n / 16) (hexDigitChar (n % 16) :: acc)
termination_by n
decreasing_by exact Nat.div_lt_self (Nat.pos_of_ne_zero h) (by decide)

/-- Fuel-driven version of `toHexCore` (structurally recursive, so concrete
values compute inside the kernel); `toHexCoreF_eq_toHexCore` shows it agrees
with `toHexCore` whenever the fuel covers the value. -/
def toHexCoreF : Nat → Nat → Str → Str
  | 0, _, acc => acc
  | fuel + 1, n, acc =>
    if n = 0 then acc else toHexCoreF fuel (n / 16) (hexDigitChar (n % 16) :: acc)

/-- Model of `strconv.FormatUint(n, 16)`. -/
def uintToHexStr (n : Nat) : Str :=
  if n = 0 then str "0" else toHexCoreF n n []

/-- Numeric value of a hex digit character, as accepted by
`strconv.ParseUint(_, 16, 64)` (both letter cases are valid). -/
def hexVal (c : Char) : Option Nat :=
  if '0' ≤ c ∧ c ≤ '9' then some (c.toNat - 48)
  else if 'a' ≤ c ∧ c ≤ 'f' then some (c.toNat - 87)
  else if 'A' ≤ c ∧ c ≤ 'F' then some (c.toNat - 55)
  else none

/-- Digit-accumulation loop of the hex parser. -/
def parseHexCore : Str → Nat → Option Nat
  | [], acc => some acc
  | c :: cs, acc =>
    match hexVal c with
    | none => none
    | some d => parseHexCore cs (acc * 16 + d)

/-- Model of `strconv.ParseUint(s, 16, 64)`: `none` on the empty string, on a
non-hex character, and on overflow past 64 bits. -/
def parseUintHex64 (s : Str) : Option Nat :=
  if s = [] then none
  else
    match parseHexCore s 0 with
    | none => none
    | some v => if v < 2 ^ 64 then some v else none

/-- Association-list upsert, the model of a Go `map[string]string` assignment
`m[k] = v` (used by `MapCarrier.Set` and during extraction). -/
def setKV : List (Str × Str) → Str → Str → List (Str × Str)
  | [], k, v => [(k, v)]
  | (k', v') :: rest, k, v =>
    if k' = k then (k, v) :: rest else (k', v') :: setKV rest k v

/-- Association-list lookup, the model of a Go map read `m[k]` returning the
entry when present. -/
def lookupKV : List (Str × Str) → Str → Option Str
  | [], _ => none
  | (k', v') :: rest, k => if k' = k then some v' else lookupKV rest k

/-- Go map read with the zero-value default: `m[k]` is `""` when absent. -/
def mapGet (l : List (Str × Str)) (k : Str) : Str := (lookupKV l k).getD []

/-- The two recording intensities of this tracer version (`RecordingOff`,
`RecordingVerbose`). -/
inductive RecordingType
  | off
  | verbose
deriving DecidableEq, Repr

/-- `SpanMeta`: the serializable identity of a span crossing process
boundaries. The opaque opentracing shadow-span context is modelled as an
uninterpreted `Option Str` (none for Go nil). -/
structure SpanMeta where
  traceID : Nat
  spanID : Nat
  shadowTracerType : Str
  shadowCtx : Option Str
  recordingType : RecordingType
  Baggage : List (Str × Str)
deriving DecidableEq, Repr

/-- Modelled from the spec: `SpanMeta.isNilOrNoop` (the `SpanMeta` methods live
in `span.go`, which is not part of the provided sources). A `SpanMeta` denotes
"no tracing" when the pointer is nil or both ids are zero ("A SpanMeta with
trace id = 0 and span id = 0 denotes 'no tracing in effect'"). -/
def isNilOrNoop : Option SpanMeta → Bool
  | none => true
  | some sm => sm.traceID = 0 && sm.spanID = 0

/-- The canonical "no tracing" metadata (`noopSpanMeta`). -/
def noopSpanMeta : SpanMeta :=
  { traceID := 0, spanID := 0, shadowTracerType := [], shadowCtx := none,
    recordingType := .off, Baggage := [] }

/-- Wire-protocol key namespace for tracer state (`prefixTracerState`). -/
def pfxTracerState : Str := str "crdb-tracer-"

/-- Wire-protocol key namespace for baggage entries (`prefixBaggage`). -/
def pfxBaggage : Str := str "crdb-baggage-"

/-- Wire-protocol key namespace for shadow-tracer fields (`prefixShadow`). -/
def pfxShadow : Str := str "crdb-shadow-"

/-- Wire key of the trace id (`fieldNameTraceID`). -/
def fieldNameTraceID : Str := pfxTracerState ++ str "traceid"

/-- Wire key of the span id (`fieldNameSpanID`). -/
def fieldNameSpanID : Str := pfxTracerState ++ str "spanid"

/-- Wire key of the shadow tracer type (`fieldNameShadowType`). -/
def fieldNameShadowType : Str := pfxTracerState ++ str "shadowtype"

/-- The baggage key carrying the verbose-recording flag
(`verboseTracingBaggageKey = "sb"`). -/
def verboseTracingBaggageKey : Str := str "sb"

/-- The two supported carrier kinds plus the catch-all for the `default`
branch of the carrier type switch ("unsupported carrier"). -/
inductive CarrierKind
  | map
  | metadata
  | unsupported
deriving DecidableEq, Repr

/-- A carrier: key/value entries tagged with their physical kind.
`MapCarrier` is in the sources; `metadataCarrier` is modelled from the spec
(both kinds share one logical string-pair encoding). -/
structure Carrier where
  kind : CarrierKind
  entries : List (Str × Str)
deriving DecidableEq, Repr

/-- `Carrier.Set`: upsert of a key/value pair. -/
def carrierSet (c : Carrier) (k v : Str) : Carrier :=
  { c with entries := setKV c.entries k v }

/-- The serialization format tied to each supported carrier kind
(`mapFormat` / `metadataFormat`); `none` models the `default:` unsupported
branch. -/
inductive SFormat
  | mapFormat
  | metadataFormat
deriving DecidableEq, Repr

/-- The format selected by the carrier type switch of
`InjectMetaInto`/`ExtractMetaFrom`. -/
def carrierFormat : CarrierKind → Option SFormat
  | .map => some .mapFormat
  | .metadata => some .metadataFormat
  | .unsupported => none

/-- An attached shadow (external backend) tracer, modelled abstractly: a type
tag plus opaque inject/extract functions supplied by the backend ("consumed as
an abstract capability: create/inject/extract/close"). `inj` yields the
key/value pairs the backend writes through the provided writer; `ext` rebuilds
a backend span context from the collected shadow entries. -/
structure ShadowTracer where
  typ : Str
  inj : SFormat → Option Str → Except Unit (List (Str × Str))
  ext : SFormat → List (Str × Str) → Except Unit Str

/-- Tracing modes (`modeLegacy`, `modeBackground`). -/
inductive TMode
  | legacy
  | background
deriving DecidableEq, Repr

/-- The Tracer's configuration cells: mode, net-trace (debug sink) flag and the
optional shadow tracer pointer. -/
structure Tracer where
  mode : TMode
  useNetTrace : Bool
  shadow : Option ShadowTracer

/-- Modelled from the spec: `shadowTracer.Type()` (from `shadow.go`, not in the
provided sources): the nil shadow tracer reports `("", false)`, an attached one
reports its backend name and `true`. -/
def shadowTyp : Option ShadowTracer → Str × Bool
  | none => ([], false)
  | some sh => (sh.typ, true)

/-- `Tracer.AlwaysTrace`: operations are always traced when the debug sink is
on or a shadow tracer is attached. -/
def AlwaysTrace (t : Tracer) : Bool := t.useNetTrace || (shadowTyp t.shadow).2

/-- Errors surfaced by `InjectMetaInto`: the unsupported-carrier error and a
backend injection error. -/
inductive InjectErr
  | unsupportedCarrier
  | shadowInj
deriving DecidableEq, Repr

/-- Errors surfaced by `ExtractMetaFrom`: the unsupported-carrier error,
`opentracing.ErrSpanContextCorrupted`, and a backend extraction error. -/
inductive ExtractErr
  | unsupportedCarrier
  | spanContextCorrupted
  | shadowExt
deriving DecidableEq, Repr

/-- `Tracer.InjectMetaInto`: serialize span metadata into a carrier. Mirrors
the source: the nil/no-op fast path writes nothing; unsupported carriers fail;
then the trace id and span id are written in hex, each baggage entry under the
baggage namespace, and — only when the currently attached shadow tracer's type
matches the one recorded in the metadata — the shadow type tag plus the
backend's own fields under the shadow namespace. -/
def InjectMetaInto (t : Tracer) (osm : Option SpanMeta) (c : Carrier) :
    Except InjectErr Carrier :=
  if isNilOrNoop osm then .ok c
  else
    match osm with
    | none => .ok c
    | some sm =>
      match carrierFormat c.kind with
      | none => .error .unsupportedCarrier
      | some format =>
        let c1 := carrierSet c fieldNameTraceID (uintToHexStr sm.traceID)
        let c2 := carrierSet c1 fieldNameSpanID (uintToHexStr sm.spanID)
        let c3 := sm.Baggage.foldl (fun acc kv => carrierSet acc (pfxBaggage ++ kv.1) kv.2) c2
        match t.shadow with
        | none => .ok c3
        | some sh =>
          if sm.shadowTracerType = (shadowTyp (some sh)).1 then
            let c4 := carrierSet c3 fieldNameShadowType sm.shadowTracerType
            match sh.inj format sm.shadowCtx with
            | .error _ => .error .shadowInj
            | .ok kvs =>
              .ok (kvs.foldl (fun acc kv => carrierSet acc (pfxShadow ++ kv.1) kv.2) c4)
          else .ok c3

/-- Accumulator of the `ForEach` loop inside `ExtractMetaFrom`. -/
structure ExtractAcc where
  traceID : Nat
  spanID : Nat
  shadowType : Str
  baggage : List (Str × Str)
  shadowCarrier : List (Str × Str)
deriving DecidableEq, Repr

/-- Initial accumulator of the extraction loop (Go zero values; the nil
baggage/shadow maps are modelled as empty lists). -/
def extractAccInit : ExtractAcc :=
  { traceID := 0, spanID := 0, shadowType := [], baggage := [], shadowCarrier := [] }

/-- One step of the extraction loop: lower-case the key, then dispatch on the
fixed field names and the baggage/shadow namespaces exactly as the source's
`switch` does. -/
def extractStep (acc : ExtractAcc) (kv : Str × Str) : Except ExtractErr ExtractAcc :=
  let k := toLowerStr kv.1
  let v := kv.2
  if k = fieldNameTraceID then
    match parseUintHex64 v with
    | none => .error .spanContextCorrupted
    | some n => .ok { acc with traceID := n }
  else if k = fieldNameSpanID then
    match parseUintHex64 v with
    | none => .error .spanContextCorrupted
    | some n => .ok { acc with spanID := n }
  else if k = fieldNameShadowType then
    .ok { acc with shadowType := v }
  else if hasPfx pfxBaggage k then
    .ok { acc with baggage := setKV acc.baggage (dropPfx pfxBaggage k) v }
  else if hasPfx pfxShadow k then
    .ok { acc with shadowCarrier := setKV acc.shadowCarrier (dropPfx pfxShadow k) v }
  else
    .ok acc

/-- The `ForEach` loop of `ExtractMetaFrom`: fold `extractStep` over the
carrier entries, stopping at the first error. -/
def extractLoop (acc : ExtractAcc) : List (Str × Str) → Except ExtractErr ExtractAcc
  | [] => .ok acc
  | kv :: rest =>
    match extractStep acc kv with
    | .error e => .error e
    | .ok acc' => extractLoop acc' rest

/-- `Tracer.ExtractMetaFrom`: deserialize span metadata from a carrier.
Mirrors the source: unsupported carriers fail; the entry loop collects ids,
shadow type, namespaced baggage and namespaced shadow fields; absent ids give
the no-op metadata; the verbose recording flag is decoded from the `"sb"`
baggage entry; a shadow type that disagrees with the currently configured
backend is scrubbed, a matching one has its context re-extracted by the
backend (whose failure is propagated). -/
def ExtractMetaFrom (t : Tracer) (c : Carrier) : Except ExtractErr SpanMeta :=
  match carrierFormat c.kind with
  | none => .error .unsupportedCarrier
  | some format =>
    match extractLoop extractAccInit c.entries with
    | .error e => .error e
    | .ok acc =>
      if acc.traceID = 0 ∧ acc.spanID = 0 then .ok noopSpanMeta
      else
        let recordingType : RecordingType :=
          if mapGet acc.baggage verboseTracingBaggageKey ≠ [] then .verbose else .off
        if acc.shadowType ≠ [] then
          let curShadowTyp := (shadowTyp t.shadow).1
          if acc.shadowType ≠ curShadowTyp then
            .ok { traceID := acc.traceID, spanID := acc.spanID, shadowTracerType := [],
                  shadowCtx := none, recordingType := recordingType, Baggage := acc.baggage }
          else
            match t.shadow with
            | none =>
              .ok { traceID := acc.traceID, spanID := acc.spanID, shadowTracerType := [],
                    shadowCtx := none, recordingType := recordingType, Baggage := acc.baggage }
            | some sh =>
              match sh.ext format acc.shadowCarrier with
              | .error _ => .error .shadowExt
              | .ok sctx =>
                .ok { traceID := acc.traceID, spanID := acc.spanID,
                      shadowTracerType := acc.shadowType, shadowCtx := some sctx,
                      recordingType := recordingType, Baggage := acc.baggage }
        else
          .ok { traceID := acc.traceID, spanID := acc.spanID, shadowTracerType := [],
                shadowCtx := none, recordingType := recordingType, Baggage := acc.baggage }

/-- The mutable span record (`crdbSpan`): identity, diagnostics, and the
lock-guarded tag/baggage/recording state. Timing uses an abstract `Nat`
clock; the recorded-logs list and child bookkeeping are not needed by any
claim and are omitted. -/
structure CrdbSpan where
  traceID : Nat
  spanID : Nat
  goroutineID : Nat
  parentSpanID : Nat
  operation : Str
  startTime : Nat
  logTags : Option (List (Str × Str))
  tags : List (Str × Str)
  baggage : List (Str × Str)
  recType : RecordingType
deriving DecidableEq, Repr

/-- A `Span` value in the allocation arena: the optional record (`crdb`, nil
exactly for the no-op span), whether a net-trace sub-span is attached, and the
type tag of the attached shadow sub-span, when any. -/
structure SpanVal where
  crdb : Option CrdbSpan
  hasNetTr : Bool
  otTyp : Option Str
deriving DecidableEq, Repr

/-- Modelled from the spec: `Span.isNoop` (from `span.go`, not in the provided
sources) — the no-op check is the nil-ness of the span record. -/
def spanIsNoop (sv : SpanVal) : Bool := sv.crdb.isNone

/-- The preallocated no-op span built by `NewTracer` (`&Span{tracer: t}`: no
record, no sub-spans). -/
def noopSpanVal : SpanVal := { crdb := none, hasNetTr := false, otTyp := none }

/-- The arena index of the preallocated no-op span (`NewTracer` allocates it
first). -/
def noopSpanRef : Nat := 0

/-- The Tracer's mutable runtime state: the arena of all allocated spans
(a span "pointer" is its arena index) and the active local-root-span registry
(`activeSpans.m`). -/
structure TracerState where
  arena : List SpanVal
  registry : List Nat
deriving DecidableEq, Repr

/-- The state right after `NewTracer`: the arena holds only the no-op span and
the registry is empty. -/
def newTracerState : TracerState := { arena := [noopSpanVal], registry := [] }

/-- Dereference a span pointer in the arena (valid pointers only arise from
allocation; out-of-range defaults to the no-op value). -/
def getSpan (st : TracerState) (ref : Nat) : SpanVal :=
  (st.arena.get? ref).getD noopSpanVal

/-- Trace id as read off a span handle (0 for the no-op span, which has no
record). -/
def spanTraceID (sv : SpanVal) : Nat := (sv.crdb.map (·.traceID)).getD 0

/-- Span id as read off a span handle (0 for the no-op span). -/
def spanSpanID (sv : SpanVal) : Nat := (sv.crdb.map (·.spanID)).getD 0

/-- The propagation context: the embedded span pointer, if any, plus the log
tags carried by the surrounding request context. -/
structure Ctx where
  spanRef : Option Nat
  logTags : Option (List (Str × Str))
deriving DecidableEq, Repr

/-- Modelled from the spec: `maybeWrapCtx` (from `context.go`, not in the
provided sources) — a real span is embedded into the returned context; for the
no-op fast path "the shared no-op span \x5bis\x5d paired with the input
propagation context unchanged". -/
def maybeWrapCtx (ctx : Ctx) (sv : SpanVal) (ref : Nat) : Ctx :=
  if spanIsNoop sv then ctx else { ctx with spanRef := some ref }

/-- The span-creation options (`spanOptions`; the struct lives in
`span_options.go`, not in the provided sources — fields are modelled from the
spec's option list and the uses in `tracer.go`). `Parent` is a local parent
span pointer, `RemoteParent` a decoded `SpanMeta`. `RefType` keeps the
opentracing numeric encoding: 0 = `ChildOfRef`, 1 = `FollowsFromRef`. -/
structure SpanOptions where
  Parent : Option Nat
  RemoteParent : Option SpanMeta
  RefType : Nat
  LogTags : Option (List (Str × Str))
  Tags : List (Str × Str)
  ForceRealSpan : Bool
  BypassRegistry : Bool
deriving DecidableEq, Repr

/-- Modelled from the spec: `spanOptions.parentTraceID` — the local parent's
trace id when a real local parent is given, else the remote parent's, else 0
("allocate trace id (parent's trace id if provided...)"). -/
def parentTraceID (st : TracerState) (o : SpanOptions) : Nat :=
  match o.Parent with
  | some p => if spanIsNoop (getSpan st p) then 0 else spanTraceID (getSpan st p)
  | none =>
    match o.RemoteParent with
    | some m => m.traceID
    | none => 0

/-- Modelled from the spec: `spanOptions.parentSpanID` — the parent span id
recorded on the child (0 when the span is a root). -/
def parentSpanID (st : TracerState) (o : SpanOptions) : Nat :=
  match o.Parent with
  | some p => if spanIsNoop (getSpan st p) then 0 else spanSpanID (getSpan st p)
  | none =>
    match o.RemoteParent with
    | some m => m.spanID
    | none => 0

/-- Modelled from the spec: `spanOptions.recordingType` — "a local parent
propagates its set recording-type; a remote parent's flag is used only if no
local parent"; with neither, recording is off. -/
def optsRecordingType (st : TracerState) (o : SpanOptions) : RecordingType :=
  match o.Parent with
  | some p =>
    match (getSpan st p).crdb with
    | some c => c.recType
    | none => .off
  | none =>
    match o.RemoteParent with
    | some m => m.recordingType
    | none => .off

/-- Modelled from the spec: `spanOptions.shadowTrTyp` — the backend type tag
on the parent reference, when any. -/
def optsShadowTrTyp (st : TracerState) (o : SpanOptions) : Str × Bool :=
  match o.Parent with
  | some p =>
    match (getSpan st p).otTyp with
    | some ty => (ty, true)
    | none => ([], false)
  | none =>
    match o.RemoteParent with
    | some m => (m.shadowTracerType, decide (m.shadowTracerType ≠ []))
    | none => ([], false)

/-- The fatal programming errors `startSpanGeneric` panics on: an unexpected
reference type, and supplying both a local and a remote parent. -/
inductive StartErr
  | unexpectedRefType
  | bothParents
deriving DecidableEq, Repr

/-- The no-op fast-path test of `startSpanGeneric`, after the Background-mode
adjustment of `ForceRealSpan`: a no-op span suffices when tracing is not
globally on, no recording is requested, and no real span was forced. -/
def takesFastPath (t : Tracer) (st : TracerState) (o : SpanOptions) : Bool :=
  let force := o.ForceRealSpan || decide (t.mode = .background)
  !AlwaysTrace t && decide (optsRecordingType st o = .off) && !force

/-- The log tags attached to a new real span, in the source's priority order:
explicitly supplied tags, else the tags of the propagation context
(`logtags.FromContext`), else — for a real local parent — the parent's tags. -/
def spanLogTags (st : TracerState) (ctx : Ctx) (opts : SpanOptions) :
    Option (List (Str × Str)) :=
  match opts.LogTags with
  | some lt => some lt
  | none =>
    match ctx.logTags with
    | some lt => some lt
    | none =>
      match opts.Parent with
      | some p =>
        if ¬spanIsNoop (getSpan st p) then ((getSpan st p).crdb.map (·.logTags)).getD none
        else none
      | none => none

/-- The shadow sub-span decision of `startSpanGeneric`: a shadow span (tagged
with the current shadow tracer's type) is created when a shadow tracer is
attached and the parent reference carries no type or the same type
("Make sure not to derive spans created using an old shadow tracer via a new
one"). -/
def newSpanOtTyp (t : Tracer) (st : TracerState) (opts : SpanOptions) : Option Str :=
  match t.shadow with
  | none => none
  | some sh =>
    if !(optsShadowTrTyp st opts).2 || decide ((optsShadowTrTyp st opts).1 = sh.typ) then
      some sh.typ
    else none

/-- The trace id of a new real span: the parent's when one supplies it, else
the fresh random draw `rt`. -/
def newSpanTraceID (st : TracerState) (opts : SpanOptions) (rt : Nat) : Nat :=
  if parentTraceID st opts = 0 then rt else parentTraceID st opts

/-- The baggage of a new real span: a real local parent's entire current
baggage is copied in (via `Span.SetBaggageItem` per entry, modelled as the
`setKV` upsert); with no local parent, a remote parent's baggage is copied
instead; otherwise the baggage starts empty. -/
def newSpanBaggage (st : TracerState) (opts : SpanOptions) : List (Str × Str) :=
  match opts.Parent with
  | some p =>
    if ¬spanIsNoop (getSpan st p) then
      (((getSpan st p).crdb.map (·.baggage)).getD []).foldl
        (fun acc kv => setKV acc kv.1 kv.2) []
    else []
  | none =>
    match opts.RemoteParent with
    | some m => m.Baggage.foldl (fun acc kv => setKV acc kv.1 kv.2) []
    | none => []

/-- The record (`crdbSpan`) of a new real span, as `startSpanGeneric` fills it
in. `Span.SetTag` / `Span.SetBaggageItem` (from `span.go`, not in the provided
sources) are modelled from the spec as upserts into the guarded record state,
which here shows up as the `foldl setKV` builds of the tag and baggage maps. -/
def newSpanCrdb (st : TracerState) (ctx : Ctx) (opName : Str) (opts : SpanOptions)
    (rt rs gid tm : Nat) : CrdbSpan :=
  { traceID := newSpanTraceID st opts rt, spanID := rs, goroutineID := gid,
    parentSpanID := parentSpanID st opts, operation := opName, startTime := tm,
    logTags := spanLogTags st ctx opts,
    tags := opts.Tags.foldl (fun acc kv => setKV acc kv.1 kv.2) [],
    baggage := newSpanBaggage st opts,
    recType := optsRecordingType st opts }

/-- The new real span handle: the record plus the optional net-trace and
shadow sub-spans. -/
def newSpanVal (t : Tracer) (st : TracerState) (ctx : Ctx) (opName : Str)
    (opts : SpanOptions) (rt rs gid tm : Nat) : SpanVal :=
  { crdb := some (newSpanCrdb st ctx opName opts rt rs gid tm),
    hasNetTr := t.useNetTrace, otTyp := newSpanOtTyp t st opts }

/-- The registry update of `startSpanGeneric`: a span started with no local
parent and without the bypass-registry option is put into the active-span
registry. -/
def newSpanRegistry (st : TracerState) (opts : SpanOptions) (ref : Nat) : List Nat :=
  if opts.Parent = none ∧ opts.BypassRegistry = false then st.registry ++ [ref]
  else st.registry

/-- The real-span branch of `startSpanGeneric`: allocate the span at the end
of the arena, update the registry, and wrap the context. -/
def mkRealSpan (t : Tracer) (st : TracerState) (ctx : Ctx) (opName : Str)
    (opts : SpanOptions) (rt rs gid tm : Nat) : TracerState × Ctx × Nat :=
  ({ arena := st.arena ++ [newSpanVal t st ctx opName opts rt rs gid tm],
     registry := newSpanRegistry st opts st.arena.length },
   maybeWrapCtx ctx (newSpanVal t st ctx opName opts rt rs gid tm) st.arena.length,
   st.arena.length)

/-- `Tracer.startSpanGeneric` (the implementation of `StartSpan` and
`StartSpanCtx`). The two panics are modelled as `StartErr` results. The
process randomness (the `rand.Int63()` draws for trace id and span id),
goroutine id and clock are passed as explicit inputs `rt rs gid tm`. On
success it returns the new tracer state, the (possibly wrapped) context and
the pointer of the returned span: the preallocated no-op span on the fast
path, a freshly allocated real span otherwise. -/
def startSpanGeneric (t : Tracer) (st : TracerState) (ctx : Ctx) (opName : Str)
    (opts : SpanOptions) (rt rs gid tm : Nat) :
    Except StartErr (TracerState × Ctx × Nat) :=
  if ¬(opts.RefType = 0 ∨ opts.RefType = 1) then .error .unexpectedRefType
  else if opts.Parent.isSome ∧ opts.RemoteParent.isSome then .error .bothParents
  else if takesFastPath t st opts then
    .ok (st, maybeWrapCtx ctx (getSpan st noopSpanRef) noopSpanRef, noopSpanRef)
  else .ok (mkRealSpan t st ctx opName opts rt rs gid tm)

/-- `Tracer.StartSpanCtx` with an already-assembled option set (the option
list of the Go signature is just a builder for `spanOptions`). -/
def StartSpanCtx (t : Tracer) (st : TracerState) (ctx : Ctx) (opName : Str)
    (opts : SpanOptions) (rt rs gid tm : Nat) :
    Except StartErr (TracerState × Ctx × Nat) :=
  startSpanGeneric t st ctx opName opts rt rs gid tm

/-- Modelled from the spec: `Span.SetBaggageItem` as a state transformer (from
`span.go`, not in the provided sources): "mutates the guarded record state
under its lock"; "all are no-ops on the shared no-op span". The backend
sub-span mirroring is opaque and not modelled. -/
def setBaggageItemState (st : TracerState) (ref : Nat) (k v : Str) : TracerState :=
  match st.arena.get? ref with
  | none => st
  | some sv =>
    match sv.crdb with
    | none => st
    | some c =>
      { st with
        arena := st.arena.set ref { sv with crdb := some { c with baggage := setKV c.baggage k v } } }

/-- A tracer configured with Legacy mode, debug sink off and no shadow
backend (the state right after `NewTracer`, before any `Configure`). -/
def tracerNoShadow : Tracer := { mode := .legacy, useNetTrace := false, shadow := none }

/-- An empty `MapCarrier`. -/
def emptyMapCarrier : Carrier := { kind := .map, entries := [] }

/-- An empty propagation context. -/
def ctxEmpty : Ctx := { spanRef := none, logTags := none }

/-- The default option set (no parents, child-of reference, nothing forced). -/
def optsBare : SpanOptions :=
  { Parent := none, RemoteParent := none, RefType := 0, LogTags := none,
    Tags := [], ForceRealSpan := false, BypassRegistry := false }

/-- A concrete remote-parent metadata used by witnesses and counterexamples. -/
def smRemote : SpanMeta :=
  { traceID := 5, spanID := 6, shadowTracerType := [], shadowCtx := none,
    recordingType := .off, Baggage := [(str "k", str "v")] }

/-- A concrete metadata whose single baggage key contains an upper-case
letter. -/
def smUpperBaggage : SpanMeta :=
  { traceID := 1, spanID := 2, shadowTracerType := [], shadowCtx := none,
    recordingType := .off, Baggage := [(str "A", str "x")] }

/-- A concrete metadata with lower-case baggage keys (round-trip witness). -/
def smLowerBaggage : SpanMeta :=
  { traceID := 3, spanID := 4, shadowTracerType := [], shadowCtx := none,
    recordingType := .off, Baggage := [(str "a", str "x")] }

/-- A concrete metadata whose recording flag is verbose but whose baggage has
no `"sb"` entry. -/
def smVerboseNoSb : SpanMeta :=
  { traceID := 1, spanID := 2, shadowTracerType := [], shadowCtx := none,
    recordingType := .verbose, Baggage := [] }

/-- A concrete real parent span record with one baggage entry. -/
def parentCrdb : CrdbSpan :=
  { traceID := 9, spanID := 8, goroutineID := 0, parentSpanID := 0,
    operation := str "p", startTime := 0, logTags := none, tags := [],
    baggage := [(str "bk", str "bv")], recType := .off }

/-- A tracer state holding the no-op span and one real root span (arena
index 1). -/
def stWithParent : TracerState :=
  { arena := [noopSpanVal, { crdb := some parentCrdb, hasNetTr := false, otTyp := none }],
    registry := [1] }

theorem hexVal_hexDigitChar : ∀ d, d < 16 → hexVal (hexDigitChar d) = some d := by
  decide

theorem toHexCore_acc (n : Nat) : ∀ acc : Str, toHexCore n acc = toHexCore n [] ++ acc := by
  induction n using Nat.strong_induction_on with
  | _ n ih =>
    intro acc
    by_cases h : n = 0
    · simp [toHexCore, h]
    · have hlt : n / 16 < n := Nat.div_lt_self (Nat.pos_of_ne_zero h) (by decide)
      conv_lhs => rw [toHexCore]
      conv_rhs => rw [toHexCore]
      simp only [h, dite_false]
      rw [ih _ hlt (hexDigitChar (n % 16) :: acc), ih _ hlt [hexDigitChar (n % 16)]]
      simp

theorem parseHexCore_append (l₁ l₂ : Str) (a : Nat) :
    parseHexCore (l₁ ++ l₂) a =
      match parseHexCore l₁ a with
      | none => none
      | some v => parseHexCore l₂ v := by
  induction l₁ generalizing a with
  | nil => simp [parseHexCore]
  | cons c cs ih =>
    simp only [List.cons_append, parseHexCore]
    cases hexVal c with
    | none => simp
    | some d => simp [ih]

theorem parseHexCore_toHexCore (n : Nat) :
    ∀ a : Nat, parseHexCore (toHexCore n []) a =
      some (a * 16 ^ (toHexCore n []).length + n) := by
  induction n using Nat.strong_induction_on with
  | _ n ih =>
    intro a
    by_cases h : n = 0
    · simp [toHexCore, h, parseHexCore]
    · have hlt : n / 16 < n := Nat.div_lt_self (Nat.pos_of_ne_zero h) (by decide)
      have hstep : toHexCore n [] = toHexCore (n / 16) [] ++ [hexDigitChar (n % 16)] := by
        conv_lhs => rw [toHexCore]
        simp only [h, dite_false]
        exact toHexCore_acc _ _
      rw [hstep, parseHexCore_append, ih _ hlt a]
      simp only [parseHexCore, hexVal_hexDigitChar (n % 16) (Nat.mod_lt _ (by decide)),
        List.length_append, List.length_singleton]
      have : (a * 16 ^ (toHexCore (n / 16) []).length + n / 16) * 16 + n % 16 =
          a * 16 ^ ((toHexCore (n / 16) []).length + 1) + n := by
        rw [pow_succ]
        have := Nat.div_add_mod n 16
        ring_nf
        omega
      rw [this]

theorem toHexCoreF_eq_toHexCore (fuel : Nat) :
    ∀ n acc, n ≤ fuel → toHexCoreF fuel n acc = toHexCore n acc := by
  induction fuel with
  | zero =>
    intro n acc h
    have : n = 0 := Nat.le_zero.mp h
    subst this
    rw [toHexCore]
    rfl
  | succ fuel ih =>
    intro n acc h
    by_cases h0 : n = 0
    · subst h0
      rw [toHexCore]
      rfl
    · rw [toHexCoreF, if_neg h0, toHexCore]
      simp only [h0, dite_false]
      exact ih (n / 16) _ (by
        have : n / 16 < n := Nat.div_lt_self (Nat.pos_of_ne_zero h0) (by decide)
        omega)

theorem toHexCore_ne_nil (n : Nat) (h : n ≠ 0) : toHexCore n [] ≠ [] := by
  rw [toHexCore]
  simp only [h, dite_false]
  rw [toHexCore_acc]
  simp

/-- Round trip of the hex codec: formatting then parsing a 64-bit value is the
identity. -/
theorem parseUintHex64_uintToHexStr (n : Nat) (h : n < 2 ^ 64) :
    parseUintHex64 (uintToHexStr n) = some n := by
  by_cases h0 : n = 0
  · subst h0; decide
  · rw [uintToHexStr]
    simp only [h0, if_false]
    rw [toHexCoreF_eq_toHexCore n n [] (Nat.le_refl n)]
    rw [parseUintHex64]
    simp only [toHexCore_ne_nil n h0, if_false]
    rw [parseHexCore_toHexCore n 0]
    have hn : 0 * 16 ^ (toHexCore n []).length + n = n := by simp
    rw [hn]
    simp only [h, if_true]

theorem setKV_not_mem (l : List (Str × Str)) (k v : Str) (h : k ∉ l.map Prod.fst) :
    setKV l k v = l ++ [(k, v)] := by
  induction l with
  | nil => rfl
  | cons hd tl ih =>
    obtain ⟨k', v'⟩ := hd
    simp only [List.map_cons, List.mem_cons] at h
    push_neg at h
    rw [setKV, if_neg (fun e => h.1 e.symm), ih h.2]
    rfl

theorem foldl_setKV_nodup (l : List (Str × Str)) :
    ∀ init : List (Str × Str), (l.map Prod.fst).Nodup →
      (∀ k ∈ l.map Prod.fst, k ∉ init.map Prod.fst) →
      l.foldl (fun acc kv => setKV acc kv.1 kv.2) init = init ++ l := by
  induction l with
  | nil => intro init _ _; simp
  | cons hd tl ih =>
    intro init hnd hfresh
    obtain ⟨k, v⟩ := hd
    simp only [List.map_cons, List.nodup_cons] at hnd
    have hk : k ∉ init.map Prod.fst := hfresh k (by simp)
    rw [List.foldl_cons]
    simp only
    rw [setKV_not_mem init k v hk]
    rw [ih (init ++ [(k, v)]) hnd.2 ?_]
    · simp
    · intro k' hk' hmem
      simp only [List.map_append, List.mem_append] at hmem
      rcases hmem with h | h
      · exact hfresh k' (by simp [hk']) h
      · simp only [List.map_cons, List.map_nil, List.mem_singleton] at h
        exact hnd.1 (h ▸ hk')

theorem key_append_ne (p q k : Str) (i : Nat) (hi : i < p.length)
    (hne : p.get? i ≠ q.get? i) : p ++ k ≠ q := by
  intro heq
  apply hne
  rw [← heq]
  exact (List.get?_append hi).symm

/-- Claim C8: for every `SpanMeta` denoting "no tracing" (nil, or with zero
trace id and span id), `InjectMetaInto` returns success and leaves the carrier
completely unchanged — no key is written to it. -/
theorem inject_noop_meta_writes_nothing (t : Tracer) (osm : Option SpanMeta)
    (c : Carrier) (h : isNilOrNoop osm = true) :
    InjectMetaInto t osm c = .ok c := by
  unfold InjectMetaInto
  rw [h]
  rfl

/-- Witness for C8 at a concrete input: the nil metadata and a zero-id
metadata both leave an empty map carrier untouched. -/
theorem inject_noop_meta_writes_nothing_witness :
    InjectMetaInto tracerNoShadow (some noopSpanMeta) emptyMapCarrier = .ok emptyMapCarrier :=
  inject_noop_meta_writes_nothing tracerNoShadow (some noopSpanMeta) emptyMapCarrier (by decide)

/-- Claim C5: a call to `startSpanGeneric` whose options carry both a local
parent and a remote parent fails fast with a fatal programming error — it
never returns a span. -/
theorem both_parents_fail_fast (t : Tracer) (st : TracerState) (ctx : Ctx)
    (opName : Str) (opts : SpanOptions) (rt rs gid tm : Nat)
    (hp : opts.Parent ≠ none) (hr : opts.RemoteParent ≠ none) :
    ∃ e, startSpanGeneric t st ctx opName opts rt rs gid tm = .error e := by
  have h1 : opts.Parent.isSome := Option.isSome_iff_ne_none.mpr hp
  have h2 : opts.RemoteParent.isSome := Option.isSome_iff_ne_none.mpr hr
  unfold startSpanGeneric
  by_cases href : opts.RefType = 0 ∨ opts.RefType = 1
  · exact ⟨.bothParents, by simp [href, h1, h2]⟩
  · exact ⟨.unexpectedRefType, by simp [href]⟩

/-- Witness for C5 at a concrete input: both parents supplied. -/
theorem both_parents_fail_fast_witness :
    ∃ e, startSpanGeneric tracerNoShadow stWithParent ctxEmpty (str "op")
      { optsBare with Parent := some 1, RemoteParent := some smRemote }
      3 4 0 0 = .error e :=
  both_parents_fail_fast tracerNoShadow stWithParent ctxEmpty (str "op")
    { optsBare with Parent := some 1, RemoteParent := some smRemote }
    3 4 0 0 (by decide) (by decide)

/-- Claim C2: with Legacy mode, no shadow backend, net-trace disabled, and
options requesting neither a forced real span nor recording, `startSpanGeneric`
returns the tracer's single preallocated no-op span (the same arena pointer on
every such call), leaves the state untouched, and returns the input
propagation context unchanged. -/
theorem noop_fast_path (t : Tracer) (st : TracerState) (ctx : Ctx) (opName : Str)
    (opts : SpanOptions) (rt rs gid tm : Nat)
    (hm : t.mode = .legacy) (hsh : t.shadow = none) (hnt : t.useNetTrace = false)
    (hrec : optsRecordingType st opts = .off) (hf : opts.ForceRealSpan = false)
    (href : opts.RefType = 0 ∨ opts.RefType = 1)
    (hpar : opts.Parent = none ∨ opts.RemoteParent = none)
    (hwf : st.arena.get? noopSpanRef = some noopSpanVal) :
    startSpanGeneric t st ctx opName opts rt rs gid tm = .ok (st, ctx, noopSpanRef) := by
  have hfast : takesFastPath t st opts = true := by
    simp [takesFastPath, AlwaysTrace, shadowTyp, hsh, hnt, hm, hrec, hf]
  have hnb : ¬(opts.Parent.isSome ∧ opts.RemoteParent.isSome) := by
    rcases hpar with h | h <;> simp [h]
  have hg : getSpan st noopSpanRef = noopSpanVal := by
    unfold getSpan
    rw [hwf]
    rfl
  unfold startSpanGeneric
  simp [href, hnb, hfast, maybeWrapCtx, hg, spanIsNoop, noopSpanVal]

/-- Witness for C2 at a concrete input: a bare call on a fresh tracer returns
the no-op span and the unchanged state and context. -/
theorem noop_fast_path_witness :
    startSpanGeneric tracerNoShadow newTracerState ctxEmpty (str "op") optsBare
      3 4 0 0 = .ok (newTracerState, ctxEmpty, noopSpanRef) :=
  noop_fast_path tracerNoShadow newTracerState ctxEmpty (str "op") optsBare 3 4 0 0
    rfl rfl rfl (by decide) rfl (Or.inl rfl) (Or.inl rfl) (by decide)

theorem extractStep_error_corrupted (acc : ExtractAcc) (kv : Str × Str) (e : ExtractErr)
    (h : extractStep acc kv = .error e) : e = .spanContextCorrupted := by
  unfold extractStep at h
  by_cases h1 : toLowerStr kv.1 = fieldNameTraceID
  · simp only [h1, if_pos rfl] at h
    cases hp : parseUintHex64 kv.2 <;> rw [hp] at h <;> simp_all
  · rw [if_neg h1] at h
    by_cases h2 : toLowerStr kv.1 = fieldNameSpanID
    · simp only [h2, if_pos rfl] at h
      cases hp : parseUintHex64 kv.2 <;> rw [hp] at h <;> simp_all
    · rw [if_neg h2] at h
      by_cases h3 : toLowerStr kv.1 = fieldNameShadowType
      · simp [h3] at h
      · rw [if_neg h3] at h
        by_cases h4 : hasPfx pfxBaggage (toLowerStr kv.1)
        · simp [h4] at h
        · rw [if_neg (by simp [h4])] at h
          by_cases h5 : hasPfx pfxShadow (toLowerStr kv.1)
          · simp [h5] at h
          · rw [if_neg (by simp [h5])] at h
            simp at h

theorem extractLoop_error_of_bad (entries : List (Str × Str)) :
    ∀ acc : ExtractAcc,
      (∃ kv ∈ entries,
        (toLowerStr kv.1 = fieldNameTraceID ∨ toLowerStr kv.1 = fieldNameSpanID) ∧
          parseUintHex64 kv.2 = none) →
      extractLoop acc entries = .error .spanContextCorrupted := by
  induction entries with
  | nil => intro acc h; simp at h
  | cons hd tl ih =>
    intro acc h
    obtain ⟨kv, hmem, hfield, hbad⟩ := h
    rcases List.mem_cons.mp hmem with rfl | hmem'
    · have hstep : extractStep acc kv = .error .spanContextCorrupted := by
        unfold extractStep
        rcases hfield with h1 | h1
        · simp [h1, hbad]
        · have hne : toLowerStr kv.1 ≠ fieldNameTraceID := by
            rw [h1]
            decide
          simp [hne, h1, hbad]
      simp [extractLoop, hstep]
    · cases hstep : extractStep acc hd with
      | error e =>
        have := extractStep_error_corrupted acc hd e hstep
        subst this
        simp [extractLoop, hstep]
      | ok acc' =>
        simp only [extractLoop, hstep]
        exact ih acc' ⟨kv, hmem', hfield, hbad⟩

/-- Claim C7: on a carrier of a supported kind holding a trace id or span id
field whose value is not a valid hexadecimal unsigned 64-bit integer,
`ExtractMetaFrom` returns the span-context-corrupted decoding error rather
than a `SpanMeta`. -/
theorem extract_malformed_id_errors (t : Tracer) (c : Carrier) (kv : Str × Str)
    (hkind : c.kind ≠ .unsupported)
    (hmem : kv ∈ c.entries)
    (hfield : toLowerStr kv.1 = fieldNameTraceID ∨ toLowerStr kv.1 = fieldNameSpanID)
    (hbad : parseUintHex64 kv.2 = none) :
    ExtractMetaFrom t c = .error .spanContextCorrupted := by
  have hloop := extractLoop_error_of_bad c.entries extractAccInit ⟨kv, hmem, hfield, hbad⟩
  unfold ExtractMetaFrom
  cases hk : c.kind with
  | unsupported => exact absurd hk hkind
  | map => rw [hloop]; rfl
  | metadata => rw [hloop]; rfl

/-- Witness for C7 at a concrete input: a map carrier whose trace id field
(in mixed letter case) holds the non-numeric value `"zz"`. -/
theorem extract_malformed_id_errors_witness :
    ExtractMetaFrom tracerNoShadow
      { kind := .map, entries := [(str "CRDB-Tracer-TraceID", str "zz")] } =
      .error .spanContextCorrupted :=
  extract_malformed_id_errors tracerNoShadow
    { kind := .map, entries := [(str "CRDB-Tracer-TraceID", str "zz")] }
    (str "CRDB-Tracer-TraceID", str "zz")
    (by decide) (by decide) (Or.inl (by decide)) (by decide)

theorem extractStep_key_toLower (acc : ExtractAcc) (k k' v : Str)
    (h : toLowerStr k = toLowerStr k') :
    extractStep acc (k, v) = extractStep acc (k', v) := by
  unfold extractStep
  rw [h]

theorem extractLoop_toLower_congr (l : List (Str × Str)) :
    ∀ l' : List (Str × Str),
      List.Forall₂
        (fun kv kv' => toLowerStr kv.1 = toLowerStr kv'.1 ∧ kv.2 = kv'.2) l l' →
      ∀ acc : ExtractAcc, extractLoop acc l = extractLoop acc l' := by
  induction l with
  | nil =>
    intro l' hf acc
    cases hf
    rfl
  | cons kv tl ih =>
    intro l' hf acc
    cases hf with
    | cons hhd htl =>
      rename_i kv' tl'
      obtain ⟨k, v⟩ := kv
      obtain ⟨k', v'⟩ := kv'
      obtain ⟨hk, hv⟩ := hhd
      simp only at hk hv
      subst hv
      unfold extractLoop
      rw [extractStep_key_toLower acc k k' v hk]
      cases extractStep acc (k', v) with
      | error e => rfl
      | ok acc' => exact ih tl' htl acc'

/-- Claim C9: `ExtractMetaFrom` matches carrier keys case-insensitively — two
carriers of the same supported kind whose entries agree up to the letter case
of their keys (equal values, keys equal after lower-casing) extract to exactly
the same result, shadow fields included. -/
theorem extract_case_insensitive (t : Tracer) (c c' : Carrier)
    (hkind : c'.kind = c.kind)
    (hent : List.Forall₂
      (fun kv kv' => toLowerStr kv.1 = toLowerStr kv'.1 ∧ kv.2 = kv'.2)
      c.entries c'.entries) :
    ExtractMetaFrom t c = ExtractMetaFrom t c' := by
  unfold ExtractMetaFrom
  rw [hkind, extractLoop_toLower_congr c.entries c'.entries hent extractAccInit]

/-- Witness for C9 at a concrete input: upper-casing the trace id, baggage and
shadow-field keys leaves the extraction result unchanged. -/
theorem extract_case_insensitive_witness :
    ExtractMetaFrom tracerNoShadow
      { kind := .map, entries := [(str "crdb-tracer-traceid", str "a"),
                                  (str "crdb-baggage-sb", str "1"),
                                  (str "crdb-shadow-k", str "w")] } =
    ExtractMetaFrom tracerNoShadow
      { kind := .map, entries := [(str "CRDB-TRACER-TRACEID", str "a"),
                                  (str "Crdb-Baggage-SB", str "1"),
                                  (str "crdb-SHADOW-K", str "w")] } :=
  extract_case_insensitive tracerNoShadow
    { kind := .map, entries := [(str "crdb-tracer-traceid", str "a"),
                                (str "crdb-baggage-sb", str "1"),
                                (str "crdb-shadow-k", str "w")] }
    { kind := .map, entries := [(str "CRDB-TRACER-TRACEID", str "a"),
                                (str "Crdb-Baggage-SB", str "1"),
                                (str "crdb-SHADOW-K", str "w")] }
    rfl (by decide)

/-- Claim C10: the recording flag travels on the wire only via the `"sb"`
baggage entry. First, `ExtractMetaFrom` yields a verbose recording type
exactly when the decoded baggage holds a non-empty `"sb"` entry; second,
`InjectMetaInto` writes no dedicated recording-flag field, so a metadata whose
recording flag is verbose but whose baggage lacks that entry comes back from a
round trip with the flag dropped. -/
theorem recording_flag_only_via_sb_baggage :
    (∀ (t : Tracer) (c : Carrier) (m : SpanMeta),
        ExtractMetaFrom t c = .ok m →
        (m.recordingType = .verbose ↔ mapGet m.Baggage verboseTracingBaggageKey ≠ [])) ∧
    (∃ c' m, InjectMetaInto tracerNoShadow (some smVerboseNoSb) emptyMapCarrier = .ok c' ∧
        ExtractMetaFrom tracerNoShadow c' = .ok m ∧
        smVerboseNoSb.recordingType = .verbose ∧ m.recordingType = .off) := by
  constructor
  · intro t c m h
    unfold ExtractMetaFrom at h
    split at h
    · simp at h
    · split at h
      · simp at h
      · split at h
        · injection h with h
          subst h
          decide
        · rename_i acc _ _
          by_cases hc : mapGet acc.baggage verboseTracingBaggageKey ≠ []
          · rw [if_pos hc] at h
            repeat' split at h
            all_goals
              first
                | (injection h with h; subst h; simp [hc])
                | (subst h; simp [hc])
                | (simp at h; done)
                | (simp only [ite_self] at h; injection h with h; subst h; simp [hc])
                | (simp only [ite_self] at h
                   split at h <;>
                     first
                       | (simp at h; done)
                       | (injection h with h; subst h; simp [hc]))
                | (split at h <;>
                    first
                      | (simp at h; done)
                      | (injection h with h; subst h; simp [hc]))
          · rw [if_neg hc] at h
            push_neg at hc
            repeat' split at h
            all_goals
              first
                | (injection h with h; subst h; simp [hc])
                | (subst h; simp [hc])
                | (simp at h; done)
                | (simp only [ite_self] at h; injection h with h; subst h; simp [hc])
                | (simp only [ite_self] at h
                   split at h <;>
                     first
                       | (simp at h; done)
                       | (injection h with h; subst h; simp [hc]))
                | (split at h <;>
                    first
                      | (simp at h; done)
                      | (injection h with h; subst h; simp [hc]))
  · exact ⟨{ kind := .map,
             entries := [(fieldNameTraceID, str "1"), (fieldNameSpanID, str "2")] },
           { traceID := 1, spanID := 2, shadowTracerType := [], shadowCtx := none,
             recordingType := .off, Baggage := [] },
           by decide, by decide, by decide, by decide⟩

/-- Witness for C10's universal part at a concrete input: a carrier with a
non-empty `"sb"` baggage entry extracts to a verbose metadata. -/
theorem recording_flag_only_via_sb_baggage_witness :
    ({ traceID := 1, spanID := 0, shadowTracerType := [], shadowCtx := none,
       recordingType := .verbose,
       Baggage := [(str "sb", str "y")] } : SpanMeta).recordingType = .verbose ↔
      mapGet [(str "sb", str "y")] verboseTracingBaggageKey ≠ [] :=
  recording_flag_only_via_sb_baggage.1 tracerNoShadow
    { kind := .map, entries := [(str "crdb-tracer-traceid", str "1"),
                                (str "crdb-baggage-sb", str "y")] }
    { traceID := 1, spanID := 0, shadowTracerType := [], shadowCtx := none,
      recordingType := .verbose, Baggage := [(str "sb", str "y")] }
    (by decide)

/-- Claim C3 (amended): a real span gets the drawn 63-bit random span id, and
the parent's trace id when one is supplied, else the drawn random trace id;
both ids are nonzero whenever the random draws are nonzero, and the no-op span
has both ids 0. (The generator itself can draw 0, so "never zero" holds only
conditionally; see the counterexample.) -/
theorem real_span_ids_nonzero_amended (t : Tracer) (st : TracerState) (ctx : Ctx)
    (opName : Str) (opts : SpanOptions) (rt rs gid tm : Nat)
    (href : opts.RefType = 0 ∨ opts.RefType = 1)
    (hpar : opts.Parent = none ∨ opts.RemoteParent = none)
    (hfp : takesFastPath t st opts = false)
    (hrt : rt ≠ 0) (hrs : rs ≠ 0) :
    (∃ st' ctx' ref c,
        startSpanGeneric t st ctx opName opts rt rs gid tm = .ok (st', ctx', ref) ∧
        (getSpan st' ref).crdb = some c ∧ c.traceID ≠ 0 ∧ c.spanID ≠ 0) ∧
    spanTraceID noopSpanVal = 0 ∧ spanSpanID noopSpanVal = 0 := by
  refine ⟨?_, rfl, rfl⟩
  have hnb : ¬(opts.Parent.isSome ∧ opts.RemoteParent.isSome) := by
    rcases hpar with h | h <;> simp [h]
  have hres : startSpanGeneric t st ctx opName opts rt rs gid tm
      = .ok (mkRealSpan t st ctx opName opts rt rs gid tm) := by
    unfold startSpanGeneric
    simp [href, hnb, hfp]
  refine ⟨(mkRealSpan t st ctx opName opts rt rs gid tm).1,
          (mkRealSpan t st ctx opName opts rt rs gid tm).2.1,
          st.arena.length, newSpanCrdb st ctx opName opts rt rs gid tm,
          hres, ?_, ?_, hrs⟩
  · show (getSpan (mkRealSpan t st ctx opName opts rt rs gid tm).1 st.arena.length).crdb
        = some (newSpanCrdb st ctx opName opts rt rs gid tm)
    unfold getSpan mkRealSpan
    rw [List.get?_concat_length]
    rfl
  · show newSpanTraceID st opts rt ≠ 0
    unfold newSpanTraceID
    by_cases hz : parentTraceID st opts = 0
    · simpa [hz] using hrt
    · simpa [hz] using hz

/-- Counterexample for C3 as frozen: when the 63-bit generator draws 0 (an
admissible output of `rand.Int63()`), a forced real root span is created whose
trace id and span id are both 0 — so a real span's ids are not "never zero". -/
theorem real_span_zero_ids_counterexample :
    ((startSpanGeneric tracerNoShadow newTracerState ctxEmpty (str "op")
        { optsBare with ForceRealSpan := true } 0 0 0 0).toOption.bind
      (fun r => ((r.1.arena.get? r.2.2).bind SpanVal.crdb).map
        (fun c => (c.traceID, c.spanID)))) = some (0, 0) := by
  decide

/-- Claim C4 (amended): a real span is inserted into the active-root-span
registry exactly when the bypass-registry option is not set and no local
parent span was supplied; a remote parent alone does not prevent
registration. -/
theorem registry_iff_no_local_parent (t : Tracer) (st : TracerState) (ctx : Ctx)
    (opName : Str) (opts : SpanOptions) (rt rs gid tm : Nat)
    (href : opts.RefType = 0 ∨ opts.RefType = 1)
    (hpar : opts.Parent = none ∨ opts.RemoteParent = none)
    (hfp : takesFastPath t st opts = false)
    (hreg : ∀ r ∈ st.registry, r < st.arena.length) :
    ∃ st' ctx' ref,
      startSpanGeneric t st ctx opName opts rt rs gid tm = .ok (st', ctx', ref) ∧
      ((ref ∈ st'.registry) ↔ (opts.BypassRegistry = false ∧ opts.Parent = none)) := by
  have hnb : ¬(opts.Parent.isSome ∧ opts.RemoteParent.isSome) := by
    rcases hpar with h | h <;> simp [h]
  have hres : startSpanGeneric t st ctx opName opts rt rs gid tm
      = .ok (mkRealSpan t st ctx opName opts rt rs gid tm) := by
    unfold startSpanGeneric
    simp [href, hnb, hfp]
  refine ⟨(mkRealSpan t st ctx opName opts rt rs gid tm).1,
          (mkRealSpan t st ctx opName opts rt rs gid tm).2.1,
          st.arena.length, hres, ?_⟩
  show st.arena.length ∈ newSpanRegistry st opts st.arena.length ↔ _
  unfold newSpanRegistry
  by_cases hcond : opts.Parent = none ∧ opts.BypassRegistry = false
  · rw [if_pos hcond]
    simp [hcond.1, hcond.2]
  · rw [if_neg hcond]
    have hnot : st.arena.length ∉ st.registry :=
      fun hmem => absurd (hreg _ hmem) (lt_irrefl _)
    simp only [hnot, false_iff]
    intro hco
    exact hcond ⟨hco.2, hco.1⟩

/-- Counterexample for C4 as frozen: a real span started with a remote parent
(and no local parent, registry not bypassed) IS inserted into the registry,
refuting the "no parent at all" condition — only the absence of a local parent
matters. -/
theorem registry_remote_parent_counterexample :
    ((startSpanGeneric tracerNoShadow newTracerState ctxEmpty (str "op")
        { optsBare with RemoteParent := some smRemote, ForceRealSpan := true }
        3 4 0 0).toOption.map
      (fun r => (decide (r.2.2 ∈ r.1.registry),
                 ((r.1.arena.get? r.2.2).bind SpanVal.crdb).isSome))) = some (true, true)
    ∧ ({ optsBare with RemoteParent := some smRemote, ForceRealSpan := true }
        : SpanOptions).RemoteParent ≠ none := by
  constructor <;> decide

/-- Witness for the amended C3 at a concrete input: nonzero random draws give
a real span with nonzero ids. -/
theorem real_span_ids_nonzero_amended_witness :
    (∃ st' ctx' ref c,
        startSpanGeneric tracerNoShadow newTracerState ctxEmpty (str "op")
          { optsBare with ForceRealSpan := true } 3 4 0 0 = .ok (st', ctx', ref) ∧
        (getSpan st' ref).crdb = some c ∧ c.traceID ≠ 0 ∧ c.spanID ≠ 0) ∧
    spanTraceID noopSpanVal = 0 ∧ spanSpanID noopSpanVal = 0 :=
  real_span_ids_nonzero_amended tracerNoShadow newTracerState ctxEmpty (str "op")
    { optsBare with ForceRealSpan := true } 3 4 0 0
    (Or.inl rfl) (Or.inl rfl) (by decide) (by decide) (by decide)

/-- Witness for the amended C4 at a concrete input: a forced real root span on
a fresh tracer lands in the registry, and the iff is inhabited. -/
theorem registry_iff_no_local_parent_witness :
    ∃ st' ctx' ref,
      startSpanGeneric tracerNoShadow newTracerState ctxEmpty (str "op")
        { optsBare with ForceRealSpan := true } 3 4 0 0 = .ok (st', ctx', ref) ∧
      ((ref ∈ st'.registry) ↔
        (({ optsBare with ForceRealSpan := true } : SpanOptions).BypassRegistry = false ∧
         ({ optsBare with ForceRealSpan := true } : SpanOptions).Parent = none)) :=
  registry_iff_no_local_parent tracerNoShadow newTracerState ctxEmpty (str "op")
    { optsBare with ForceRealSpan := true } 3 4 0 0
    (Or.inl rfl) (Or.inl rfl) (by decide) (by decide)

/-- Claim C6: a real child span created with a real local parent starts with
exactly the parent's current baggage (a copy), the creation leaves the
parent's record untouched, and setting a baggage item on the child afterwards
still leaves the parent's record (baggage included) unchanged. -/
theorem child_copies_parent_baggage (t : Tracer) (st : TracerState) (ctx : Ctx)
    (opName : Str) (opts : SpanOptions) (rt rs gid tm : Nat) (p : Nat) (pc : CrdbSpan)
    (hp : opts.Parent = some p)
    (hpc : (getSpan st p).crdb = some pc)
    (hnd : (pc.baggage.map Prod.fst).Nodup)
    (hfp : takesFastPath t st opts = false)
    (hrp : opts.RemoteParent = none)
    (href : opts.RefType = 0 ∨ opts.RefType = 1)
    (hple : p < st.arena.length) :
    ∃ st' ctx' ref c,
      startSpanGeneric t st ctx opName opts rt rs gid tm = .ok (st', ctx', ref) ∧
      (getSpan st' ref).crdb = some c ∧
      c.baggage = pc.baggage ∧
      (getSpan st' p).crdb = some pc ∧
      (∀ k v, (getSpan (setBaggageItemState st' ref k v) p).crdb = some pc) := by
  have hnb : ¬(opts.Parent.isSome ∧ opts.RemoteParent.isSome) := by simp [hrp]
  have hres : startSpanGeneric t st ctx opName opts rt rs gid tm
      = .ok (mkRealSpan t st ctx opName opts rt rs gid tm) := by
    unfold startSpanGeneric
    simp [href, hnb, hfp]
  have hnn : spanIsNoop (getSpan st p) = false := by
    unfold spanIsNoop
    rw [hpc]
    rfl
  have hget : (getSpan (mkRealSpan t st ctx opName opts rt rs gid tm).1 p).crdb
      = some pc := by
    unfold getSpan mkRealSpan
    simp only
    rw [List.get?_append hple]
    exact hpc
  refine ⟨(mkRealSpan t st ctx opName opts rt rs gid tm).1,
          (mkRealSpan t st ctx opName opts rt rs gid tm).2.1,
          st.arena.length, newSpanCrdb st ctx opName opts rt rs gid tm,
          hres, ?_, ?_, hget, ?_⟩
  · show (getSpan (mkRealSpan t st ctx opName opts rt rs gid tm).1 st.arena.length).crdb
        = some (newSpanCrdb st ctx opName opts rt rs gid tm)
    unfold getSpan mkRealSpan
    rw [List.get?_concat_length]
    rfl
  · show newSpanBaggage st opts = pc.baggage
    unfold newSpanBaggage
    rw [hp]
    simp only [hnn, Bool.not_false, if_true, hpc]
    simpa using foldl_setKV_nodup pc.baggage [] hnd (by simp)
  · intro k v
    unfold setBaggageItemState
    have harena : (mkRealSpan t st ctx opName opts rt rs gid tm).1.arena.get?
        st.arena.length = some (newSpanVal t st ctx opName opts rt rs gid tm) := by
      unfold mkRealSpan
      simp only
      exact List.get?_concat_length _ _
    rw [harena]
    simp only [newSpanVal]
    show (getSpan _ p).crdb = some pc
    unfold getSpan
    simp only
    rw [List.get?_set_ne _ _ (Nat.ne_of_gt hple)]
    exact hget

/-- Witness for C6 at a concrete input: a forced real child of the concrete
parent span copies its baggage and never aliases it. -/
theorem child_copies_parent_baggage_witness :
    ∃ st' ctx' ref c,
      startSpanGeneric tracerNoShadow stWithParent ctxEmpty (str "child")
        { optsBare with Parent := some 1, ForceRealSpan := true } 3 4 0 0
        = .ok (st', ctx', ref) ∧
      (getSpan st' ref).crdb = some c ∧
      c.baggage = parentCrdb.baggage ∧
      (getSpan st' 1).crdb = some parentCrdb ∧
      (∀ k v, (getSpan (setBaggageItemState st' ref k v) 1).crdb = some parentCrdb) :=
  child_copies_parent_baggage tracerNoShadow stWithParent ctxEmpty (str "child")
    { optsBare with Parent := some 1, ForceRealSpan := true } 3 4 0 0 1 parentCrdb
    rfl (by decide) (by decide) (by decide) rfl (Or.inl rfl) (by decide)

/-- Counterexample for C1 as frozen: a baggage key containing an upper-case
letter is written to the carrier verbatim, but extraction lower-cases every
key, so the recovered baggage key differs from the original — the round trip
does not return baggage equal to the original. -/
theorem roundtrip_uppercase_baggage_counterexample :
    ((InjectMetaInto tracerNoShadow (some smUpperBaggage) emptyMapCarrier).toOption.bind
        (fun c => (ExtractMetaFrom tracerNoShadow c).toOption)).map
      (fun m => (m.traceID, m.spanID, m.Baggage))
      = some (1, 2, [(str "a", str "x")])
    ∧ smUpperBaggage.Baggage = [(str "A", str "x")]
    ∧ lookupKV [(str "a", str "x")] (str "A") = none := by
  refine ⟨by decide, by decide, by decide⟩

theorem foldl_carrierSet_pfx (pfx : Str) (l : List (Str × Str)) :
    ∀ c : Carrier,
      l.foldl (fun acc kv => carrierSet acc (pfx ++ kv.1) kv.2) c =
        { kind := c.kind,
          entries := l.foldl (fun e kv => setKV e (pfx ++ kv.1) kv.2) c.entries } := by
  induction l with
  | nil => intro c; rfl
  | cons hd tl ih =>
    intro c
    rw [List.foldl_cons, List.foldl_cons, ih]
    rfl

theorem foldl_setKV_pfx_fresh (pfx : Str) (l : List (Str × Str)) :
    ∀ init : List (Str × Str), (l.map Prod.fst).Nodup →
      (∀ k ∈ l.map Prod.fst, (pfx ++ k) ∉ init.map Prod.fst) →
      l.foldl (fun e kv => setKV e (pfx ++ kv.1) kv.2) init
        = init ++ l.map (fun kv => (pfx ++ kv.1, kv.2)) := by
  induction l with
  | nil => simp
  | cons hd tl ih =>
    intro init hnd hfresh
    obtain ⟨k, v⟩ := hd
    simp only [List.map_cons, List.nodup_cons] at hnd
    rw [List.foldl_cons]
    simp only
    rw [setKV_not_mem init (pfx ++ k) v (hfresh k (by simp))]
    rw [ih (init ++ [(pfx ++ k, v)]) hnd.2 ?_]
    · simp
    · intro k' hk' hmem
      simp only [List.map_append, List.mem_append, List.map_cons, List.map_nil,
        List.mem_singleton] at hmem
      rcases hmem with h | h
      · exact hfresh k' (by simp [hk']) h
      · exact hnd.1 ((List.append_cancel_left h) ▸ hk')

theorem pfxBaggage_key_ne_traceID (k : Str) : pfxBaggage ++ k ≠ fieldNameTraceID :=
  key_append_ne pfxBaggage fieldNameTraceID k 5 (by decide) (by decide)

theorem pfxBaggage_key_ne_spanID (k : Str) : pfxBaggage ++ k ≠ fieldNameSpanID :=
  key_append_ne pfxBaggage fieldNameSpanID k 5 (by decide) (by decide)

theorem pfxBaggage_key_ne_shadowType (k : Str) : pfxBaggage ++ k ≠ fieldNameShadowType :=
  key_append_ne pfxBaggage fieldNameShadowType k 5 (by decide) (by decide)

theorem extractLoop_mapped_baggage (bl : List (Str × Str)) :
    ∀ acc : ExtractAcc, (∀ kv ∈ bl, toLowerStr kv.1 = kv.1) →
      extractLoop acc (bl.map fun kv => (pfxBaggage ++ kv.1, kv.2)) =
        .ok { acc with baggage := bl.foldl (fun b kv => setKV b kv.1 kv.2) acc.baggage } := by
  induction bl with
  | nil => intro acc _; rfl
  | cons hd tl ih =>
    intro acc hlow
    obtain ⟨k, v⟩ := hd
    have hk : toLowerStr k = k := hlow (k, v) (by simp)
    have hlowkey : toLowerStr (pfxBaggage ++ k) = pfxBaggage ++ k := by
      have hpfx : toLowerStr pfxBaggage = pfxBaggage := by decide
      unfold toLowerStr at hpfx hk ⊢
      rw [List.map_append, hk, hpfx]
    have hpb : hasPfx pfxBaggage (pfxBaggage ++ k) = true := by
      unfold hasPfx
      simp [List.take_left]
    have hstep : extractStep acc (pfxBaggage ++ k, v)
        = .ok { acc with baggage := setKV acc.baggage k v } := by
      unfold extractStep
      simp only [hlowkey]
      rw [if_neg (pfxBaggage_key_ne_traceID k), if_neg (pfxBaggage_key_ne_spanID k),
        if_neg (pfxBaggage_key_ne_shadowType k)]
      simp [hpb, dropPfx, List.drop_left]
    rw [List.map_cons]
    unfold extractLoop
    rw [hstep]
    simp only
    rw [ih _ (fun kv hm => hlow kv (by simp [hm]))]
    rw [List.foldl_cons]

theorem extractLoop_cons_ok (acc acc' : ExtractAcc) (kv : Str × Str)
    (rest : List (Str × Str)) (h : extractStep acc kv = .ok acc') :
    extractLoop acc (kv :: rest) = extractLoop acc' rest := by
  show (match extractStep acc kv with
        | .error e => Except.error e
        | .ok a => extractLoop a rest) = extractLoop acc' rest
  rw [h]

/-- Claim C1 (amended): injecting a `SpanMeta` with nonzero 64-bit ids into an
empty carrier of either supported kind and extracting it back recovers the
trace id, the span id, and the baggage — provided the baggage keys are already
lower-case (extraction lower-cases keys, so other keys come back lower-cased;
see the counterexample) and no shadow backend of the metadata's own type is
attached (a matching backend's inject/extract are external calls outside this
component). -/
theorem inject_extract_roundtrip_amended (t : Tracer) (sm : SpanMeta)
    (kind : CarrierKind)
    (hkind : kind ≠ .unsupported)
    (ht0 : sm.traceID ≠ 0) (hs0 : sm.spanID ≠ 0)
    (htb : sm.traceID < 2 ^ 64) (hsb : sm.spanID < 2 ^ 64)
    (hlow : ∀ kv ∈ sm.Baggage, toLowerStr kv.1 = kv.1)
    (hnd : (sm.Baggage.map Prod.fst).Nodup)
    (hsh : ∀ sh, t.shadow = some sh → sm.shadowTracerType ≠ sh.typ) :
    ∃ c' m,
      InjectMetaInto t (some sm) { kind := kind, entries := [] } = .ok c' ∧
      ExtractMetaFrom t c' = .ok m ∧
      m.traceID = sm.traceID ∧ m.spanID = sm.spanID ∧ m.Baggage = sm.Baggage := by
  have hfresh : ∀ k ∈ sm.Baggage.map Prod.fst,
      (pfxBaggage ++ k) ∉
        (([(fieldNameTraceID, uintToHexStr sm.traceID),
           (fieldNameSpanID, uintToHexStr sm.spanID)] : List (Str × Str)).map Prod.fst) := by
    intro k _ hmem
    simp only [List.map_cons, List.map_nil, List.mem_cons, List.not_mem_nil,
      or_false] at hmem
    rcases hmem with h | h
    · exact pfxBaggage_key_ne_traceID k h
    · exact pfxBaggage_key_ne_spanID k h
  have h2 : (carrierSet (carrierSet { kind := kind, entries := ([] : List (Str × Str)) }
      fieldNameTraceID (uintToHexStr sm.traceID))
      fieldNameSpanID (uintToHexStr sm.spanID)) =
      { kind := kind,
        entries := [(fieldNameTraceID, uintToHexStr sm.traceID),
                    (fieldNameSpanID, uintToHexStr sm.spanID)] } := by
    unfold carrierSet
    simp [setKV, show fieldNameTraceID ≠ fieldNameSpanID from by decide]
  have hentries :
      (sm.Baggage.foldl (fun acc kv => carrierSet acc (pfxBaggage ++ kv.1) kv.2)
        (carrierSet (carrierSet { kind := kind, entries := [] }
            fieldNameTraceID (uintToHexStr sm.traceID))
          fieldNameSpanID (uintToHexStr sm.spanID))) =
      { kind := kind,
        entries := [(fieldNameTraceID, uintToHexStr sm.traceID),
                    (fieldNameSpanID, uintToHexStr sm.spanID)] ++
          sm.Baggage.map (fun kv => (pfxBaggage ++ kv.1, kv.2)) } := by
    rw [foldl_carrierSet_pfx, h2]
    simp only
    rw [foldl_setKV_pfx_fresh pfxBaggage sm.Baggage _ hnd hfresh]
  have hnn : isNilOrNoop (some sm) = false := by
    unfold isNilOrNoop
    simp [ht0]
  have hinj : InjectMetaInto t (some sm) { kind := kind, entries := [] } =
      .ok { kind := kind,
            entries := [(fieldNameTraceID, uintToHexStr sm.traceID),
                        (fieldNameSpanID, uintToHexStr sm.spanID)] ++
              sm.Baggage.map (fun kv => (pfxBaggage ++ kv.1, kv.2)) } := by
    unfold InjectMetaInto
    rw [hnn]
    simp only [Bool.false_eq_true, if_false]
    cases kind with
    | unsupported => exact absurd rfl hkind
    | map =>
      simp only [carrierFormat]
      cases hshadow : t.shadow with
      | none => rw [hentries]
      | some sh =>
        have hne : sm.shadowTracerType ≠ (shadowTyp (some sh)).1 :=
          fun he => hsh sh hshadow he
        simp only [hne, if_false, hentries]
    | metadata =>
      simp only [carrierFormat]
      cases hshadow : t.shadow with
      | none => rw [hentries]
      | some sh =>
        have hne : sm.shadowTracerType ≠ (shadowTyp (some sh)).1 :=
          fun he => hsh sh hshadow he
        simp only [hne, if_false, hentries]
  have hstep1 : extractStep extractAccInit
      (fieldNameTraceID, uintToHexStr sm.traceID)
      = .ok ⟨sm.traceID, 0, [], [], []⟩ := by
    unfold extractStep
    rw [show toLowerStr fieldNameTraceID = fieldNameTraceID from by decide]
    rw [if_pos rfl, parseUintHex64_uintToHexStr sm.traceID htb]
    rfl
  have hstep2 : extractStep (⟨sm.traceID, 0, [], [], []⟩ : ExtractAcc)
      (fieldNameSpanID, uintToHexStr sm.spanID)
      = .ok ⟨sm.traceID, sm.spanID, [], [], []⟩ := by
    unfold extractStep
    rw [show toLowerStr fieldNameSpanID = fieldNameSpanID from by decide]
    rw [if_neg (show fieldNameSpanID ≠ fieldNameTraceID from by decide)]
    rw [if_pos rfl, parseUintHex64_uintToHexStr sm.spanID hsb]
  have hfold : sm.Baggage.foldl (fun b kv => setKV b kv.1 kv.2)
      ([] : List (Str × Str)) = sm.Baggage := by
    have := foldl_setKV_nodup sm.Baggage [] hnd (by simp)
    simpa using this
  have hloop : extractLoop extractAccInit
      ([(fieldNameTraceID, uintToHexStr sm.traceID),
        (fieldNameSpanID, uintToHexStr sm.spanID)] ++
        sm.Baggage.map (fun kv => (pfxBaggage ++ kv.1, kv.2)))
      = .ok { traceID := sm.traceID, spanID := sm.spanID, shadowType := [],
              baggage := sm.Baggage, shadowCarrier := [] } := by
    simp only [List.cons_append, List.nil_append]
    rw [extractLoop_cons_ok _ _ _ _ hstep1, extractLoop_cons_ok _ _ _ _ hstep2]
    rw [extractLoop_mapped_baggage sm.Baggage _ hlow]
    simp [hfold]
  refine ⟨_,
    { traceID := sm.traceID, spanID := sm.spanID, shadowTracerType := [],
      shadowCtx := none,
      recordingType :=
        if mapGet sm.Baggage verboseTracingBaggageKey ≠ [] then .verbose else .off,
      Baggage := sm.Baggage }, hinj, ?_, rfl, rfl, rfl⟩
  unfold ExtractMetaFrom
  have hz : ¬(sm.traceID = 0 ∧ sm.spanID = 0) := fun hh => ht0 hh.1
  cases kind with
  | unsupported => exact absurd rfl hkind
  | map =>
    simp only [carrierFormat]
    rw [hloop]
    simp only
    rw [if_neg hz, if_neg (show ¬(([] : Str) ≠ []) from by simp)]
  | metadata =>
    simp only [carrierFormat]
    rw [hloop]
    simp only
    rw [if_neg hz, if_neg (show ¬(([] : Str) ≠ []) from by simp)]

/-- Witness for the amended C1 at a concrete input: a metadata with lower-case
baggage keys round-trips exactly through a map carrier. -/
theorem inject_extract_roundtrip_amended_witness :
    ∃ c' m,
      InjectMetaInto tracerNoShadow (some smLowerBaggage)
        { kind := .map, entries := [] } = .ok c' ∧
      ExtractMetaFrom tracerNoShadow c' = .ok m ∧
      m.traceID = smLowerBaggage.traceID ∧ m.spanID = smLowerBaggage.spanID ∧
      m.Baggage = smLowerBaggage.Baggage :=
  inject_extract_roundtrip_amended tracerNoShadow smLowerBaggage .map
    (by decide) (by decide) (by decide) (by decide) (by decide)
    (by decide) (by decide) (fun sh h => by simp [tracerNoShadow] at h)
